import Mathlib

/-!
Shallow embedding of the classification engine of the `cclastrib-agent`
repository (`src/app/rules.py`, `src/app/cache.py` and the cache-key
construction of `src/app/agent.py`), together with theorems settling the
frozen claims about it.

Modelling conventions, chosen to mirror the Python source faithfully:

* Python `float` values that the engine manipulates (the transition
  percentages, confidence scores, monetary values) are modelled as exact
  rationals (`ℚ`).  Every arithmetic step the engine performs on them
  (sums of 0.6/0.2 increments, `min`, multiplication by 100) is exact in
  IEEE doubles for the values that occur, so the rational model agrees
  with the Python values.
* `datetime.date` is modelled as a year/month/day triple compared
  lexicographically (`D`), which matches `date` comparison semantics.
* A CSV row (a `dict` in Python) is modelled as a structure with one field
  per distinct key the code reads; header-variant lookups such as
  `r.get("categoria") or r.get("CATEGORIA")` are collapsed into a single
  field, and a missing key is represented by the empty string (for fields
  the code always coalesces with `or ""`) or by `none` (for date fields
  that the code parses, where an unparseable or empty cell also yields
  `None` in Python).
* The percentage cells of the transition tables are stored already parsed
  (`Option ℚ`): `none` stands for an absent/empty/unparseable cell, for
  which `parse_float_ptbr` returns `None` in the source.
* `str.strip` / `str.upper` / substring containment are implemented on
  character lists (`trimChars`, `upChar`, `strContains`), restricted to the
  ASCII range the data uses; `unicodedata`-based accent stripping
  (`normalize_text`) is modelled by a character table covering the Latin
  letters that occur in the reference tables.
-/

namespace CclasTrib

/-- Whitespace characters recognised by Python `str.strip()` (ASCII range). -/
def is_space_char (c : Char) : Bool :=
  c = ' ' || c = '\t' || c = '\n' || c = '\r' || c = '\x0b' || c = '\x0c'

/-- Drop leading whitespace. -/
def ltrimChars (l : List Char) : List Char := l.dropWhile is_space_char

/-- Drop trailing whitespace. -/
def rtrimChars (l : List Char) : List Char :=
  (l.reverse.dropWhile is_space_char).reverse

/-- Python `str.strip()` on a character list. -/
def trimChars (l : List Char) : List Char := rtrimChars (ltrimChars l)

/-- ASCII lower-to-upper table, as used by `str.upper()` on the data. -/
def upPairs : List (Char × Char) :=
  [('a', 'A'), ('b', 'B'), ('c', 'C'), ('d', 'D'), ('e', 'E'), ('f', 'F'),
   ('g', 'G'), ('h', 'H'), ('i', 'I'), ('j', 'J'), ('k', 'K'), ('l', 'L'),
   ('m', 'M'), ('n', 'N'), ('o', 'O'), ('p', 'P'), ('q', 'Q'), ('r', 'R'),
   ('s', 'S'), ('t', 'T'), ('u', 'U'), ('v', 'V'), ('w', 'W'), ('x', 'X'),
   ('y', 'Y'), ('z', 'Z')]

def upChar (c : Char) : Char :=
  ((upPairs.find? (fun p => p.1 == c)).map Prod.snd).getD c

/-- ASCII upper-to-lower table, as used by `str.lower()` on the data. -/
def downPairs : List (Char × Char) :=
  [('A', 'a'), ('B', 'b'), ('C', 'c'), ('D', 'd'), ('E', 'e'), ('F', 'f'),
   ('G', 'g'), ('H', 'h'), ('I', 'i'), ('J', 'j'), ('K', 'k'), ('L', 'l'),
   ('M', 'm'), ('N', 'n'), ('O', 'o'), ('P', 'p'), ('Q', 'q'), ('R', 'r'),
   ('S', 's'), ('T', 't'), ('U', 'u'), ('V', 'v'), ('W', 'w'), ('X', 'x'),
   ('Y', 'y'), ('Z', 'z')]

def downChar (c : Char) : Char :=
  ((downPairs.find? (fun p => p.1 == c)).map Prod.snd).getD c

/-- Accent-stripping table: NFKD decomposition followed by removal of the
combining marks sends each accented Latin letter to its base letter; the
subsequent `.lower()` of `normalize_text` lowercases the base.  Both cases of
every accented letter that occurs in the reference data map to the lowercase
base letter. -/
def accentPairs : List (Char × Char) :=
  [('á', 'a'), ('à', 'a'), ('â', 'a'), ('ã', 'a'), ('ä', 'a'),
   ('Á', 'a'), ('À', 'a'), ('Â', 'a'), ('Ã', 'a'), ('Ä', 'a'),
   ('é', 'e'), ('è', 'e'), ('ê', 'e'), ('ë', 'e'),
   ('É', 'e'), ('È', 'e'), ('Ê', 'e'), ('Ë', 'e'),
   ('í', 'i'), ('ì', 'i'), ('î', 'i'), ('ï', 'i'),
   ('Í', 'i'), ('Ì', 'i'), ('Î', 'i'), ('Ï', 'i'),
   ('ó', 'o'), ('ò', 'o'), ('ô', 'o'), ('õ', 'o'), ('ö', 'o'),
   ('Ó', 'o'), ('Ò', 'o'), ('Ô', 'o'), ('Õ', 'o'), ('Ö', 'o'),
   ('ú', 'u'), ('ù', 'u'), ('û', 'u'), ('ü', 'u'),
   ('Ú', 'u'), ('Ù', 'u'), ('Û', 'u'), ('Ü', 'u'),
   ('ç', 'c'), ('Ç', 'c'), ('ñ', 'n'), ('Ñ', 'n')]

def stripAccent (c : Char) : Char :=
  ((accentPairs.find? (fun p => p.1 == c)).map Prod.snd).getD c

/-- Function `norm_code` of `rules.py`: `(code or "").strip().upper()`. -/
def norm_code (s : String) : String :=
  ((trimChars s.toList).map upChar).asString

/-- Python `str.strip()` at the `String` level. -/
def trimS (s : String) : String := (trimChars s.toList).asString

/-- Function `norm_ncm` of `rules.py`: keep only the digits. -/
def norm_ncm (s : String) : String :=
  (s.toList.filter (fun c => c.isDigit)).asString

/-- Function `normalize_text` of `rules.py`: NFKD + lowercase + drop combining marks,
modelled per character by `downChar` then `stripAccent`. -/
def normalize_text (s : String) : String :=
  (s.toList.map (fun c => stripAccent (downChar c))).asString

/-- Test that `n` is a prefix of `h` (character lists). -/
def pfx : List Char → List Char → Bool
  | [], _ => true
  | _ :: _, [] => false
  | a :: n, b :: h => a == b && pfx n h

/-- Test that `n` occurs as a contiguous sublist of `h`, i.e. Python `n in h`. -/
def subl (n : List Char) : List Char → Bool
  | [] => n.isEmpty
  | c :: rest => pfx n (c :: rest) || subl n rest

/-- Python substring containment `needle in hay`. -/
def strContains (hay needle : String) : Bool := subl needle.toList hay.toList

/-- First eight characters of a (normalized) code, the significant prefix for
NCM comparison (`norm_ncm(raw)[:8]`). -/
def pre8 (s : String) : List Char := s.toList.take 8

/-- Python `a or b` on strings already stripped at CSV-load time ("" is falsy). -/
def pyOrS (a b : String) : String := if a = "" then b else a

/-- Python `a or b` on optional values (for `find_excecao(...) or find_in_master(...)`). -/
def pyOrO {α : Type} (a b : Option α) : Option α :=
  match a with
  | some x => some x
  | none => b

/-- Python `datetime.date`, compared lexicographically by (year, month, day). -/
structure D where
  y : Int
  m : Int
  dd : Int
deriving DecidableEq

/-- Strict `<` on dates. -/
def dlt (a b : D) : Bool :=
  decide (a.y < b.y ∨ (a.y = b.y ∧ (a.m < b.m ∨ (a.m = b.m ∧ a.dd < b.dd))))

/-- Row of `ncm_master.csv` / `ncm_excecoes.csv`.  The validity-window cells
are stored parsed: `none` is an absent/empty cell. -/
structure MRow where
  ncm : String
  vigencia_inicio : Option D
  vigencia_fim : Option D
  categoria : String
deriving DecidableEq

/-- Row of the official NCM catalogue (`Tabela_NCM_Vigente_20251227.csv`);
`codigo` collapses the header variants the code probes, the date cells are
stored as parsed by `parse_date_br` (`none` when absent or unparseable). -/
structure ORow where
  codigo : String
  data_inicio : Option D
  data_fim : Option D
  descricao : String
deriving DecidableEq

/-- Row of `transicao_ibs.csv` / `transicao_cbs.csv`; the percentage cells are
stored as parsed by `parse_float_ptbr` (`none` = absent/empty/unparseable). -/
structure TRow where
  ano : String
  percentual_ibs : Option ℚ
  percentual_cbs : Option ℚ
deriving DecidableEq

/-- Row of `cfop.csv`; `descricao_cfop` collapses the three header variants. -/
structure CfopRow where
  cfop : String
  descricao_cfop : String
deriving DecidableEq

/-- Row of `cclastrib.csv`, one field per key `pick_cclastrib` reads. -/
structure CRow where
  codigo : String
  descricao : String
  regime_emitente : String
  regime : String
  regime_fiscal : String
  cfop : String
  uf_origem : String
  uf_emitente : String
  uf_destino : String
  uf_destinatario : String
  cst_icms : String
  aplica_zfm : String
  apply_zfm : String
deriving DecidableEq

/-- Row of `cst_ibs_cbs_map.csv`. -/
structure CstMapRow where
  cclastrib_codigo : String
  cst_ibs_cbs : String
  cclass_trib : String
  descricao : String
deriving DecidableEq

/-- Row of `ncm_beneficiados_zfm.csv`. -/
structure ZRow where
  ncm : String
deriving DecidableEq

/-- The in-memory reference-table snapshot (`DataSources` in `rules.py`).
`ibs_aliquotas`, `cbs_aliquotas` and `anexos_models` are omitted: no code path
exercised by the claims reads them.  The CFOP dictionary is kept as the raw
row list; `build_cfop_index` below reproduces the dict lookup. -/
structure DataSources where
  ncm_master : List MRow
  ncm_excecoes : List MRow
  ncm_oficial : List ORow
  transicao_ibs : List TRow
  transicao_cbs : List TRow
  cclastrib : List CRow
  cst_ibs_cbs_map : List CstMapRow
  cfop_rows : List CfopRow
  ncm_beneficiados_zfm : List ZRow
deriving DecidableEq

/-- Function `build_cfop_index` of `rules.py` followed by the dict lookup
`sources.cfop_map.get(code)`: rows whose normalized CFOP is empty are not
indexed, and for duplicate codes the last row wins (dict overwrite). -/
def build_cfop_index (rows : List CfopRow) (code : String) : Option CfopRow :=
  (rows.filter (fun r => norm_code r.cfop != "" && norm_code r.cfop == code)).getLast?

/-- Keyword phrases of `detect_producao_emitente`. -/
def producao_keywords : List String :=
  ["producao do estabelecimento",
   "producao propria",
   "produto de fabricacao do estabelecimento",
   "industrializado pelo proprio estabelecimento",
   "venda de producao do estabelecimento",
   "remessa de producao do estabelecimento",
   "devolucao de producao do estabelecimento",
   "retorno de mercadoria de producao do estabelecimento"]

/-- Keyword phrases of `detect_venda_industrializada`. -/
def venda_keywords : List String :=
  ["venda de producao do estabelecimento",
   "venda de produto industrializado",
   "produto industrializado",
   "industrializacao propria",
   "producao do estabelecimento"]

/-- Test `cfop_norm[0] in ("5", "6", "7")`: outbound operation codes. -/
def cfop_saida (s : String) : Bool :=
  match s.toList with
  | [] => false
  | c :: _ => c == '5' || c == '6' || c == '7'

/-- Function `detect_producao_emitente` of `rules.py`. -/
def detect_producao_emitente (cfop_code : String) (cfop_row : Option CfopRow) :
    Option Bool :=
  match cfop_row with
  | none => none
  | some row =>
    let desc := row.descricao_cfop
    let cfop_norm := norm_code cfop_code
    if cfop_norm == "" then none
    else if !(cfop_saida cfop_norm) then some false
    else
      let desc_norm := normalize_text desc
      some (producao_keywords.any (fun k => strContains desc_norm k))

/-- Function `detect_venda_industrializada` of `rules.py`. -/
def detect_venda_industrializada (cfop_code : String) (cfop_row : Option CfopRow) :
    Option Bool :=
  match cfop_row with
  | none => none
  | some row =>
    let cfop_norm := norm_code cfop_code
    if cfop_norm == "" || !(cfop_saida cfop_norm) then some false
    else
      let desc_norm := normalize_text row.descricao_cfop
      some (venda_keywords.any (fun k => strContains desc_norm k))

/-- Function `is_ncm_beneficiado_zfm` of `rules.py`. -/
def is_ncm_beneficiado_zfm (sources : DataSources) (ncm_digits : String) : Bool :=
  sources.ncm_beneficiados_zfm.any (fun r => pre8 (norm_ncm r.ncm) == pre8 ncm_digits)

/-- Function `dentro_da_vigencia` of `rules.py`.  Note the source quirk: when `inicio`
is absent the function returns `True` immediately, without checking `fim`. -/
def dentro_da_vigencia (data : D) (inicio fim : Option D) : Bool :=
  match inicio with
  | none => true
  | some d_ini =>
    if dlt data d_ini then false
    else
      match fim with
      | none => true
      | some d_fim => if dlt d_fim data then false else true

/-- Function `find_in_master` of `rules.py`: first master row whose first eight
normalized digits match and whose two validity bounds (checked independently,
inclusive) admit the emission date. -/
def find_in_master (sources : DataSources) (ncm_digits : String) (data_emissao : D) :
    Option MRow :=
  sources.ncm_master.find? (fun r =>
    (r.ncm != "") &&
      ((pre8 (norm_ncm r.ncm) == pre8 ncm_digits) &&
        ((match r.vigencia_inicio with
          | some i => !(dlt data_emissao i)
          | none => true) &&
         (match r.vigencia_fim with
          | some f => !(dlt f data_emissao)
          | none => true))))

/-- Function `find_excecao` of `rules.py`: first exception row whose first eight
normalized digits match and which passes `dentro_da_vigencia`. -/
def find_excecao (sources : DataSources) (ncm_digits : String) (data_emissao : D) :
    Option MRow :=
  sources.ncm_excecoes.find? (fun r =>
    (r.ncm != "") &&
      ((pre8 (norm_ncm r.ncm) == pre8 ncm_digits) &&
        dentro_da_vigencia data_emissao r.vigencia_inicio r.vigencia_fim))

/-- Function `find_in_oficial` of `rules.py`. -/
def find_in_oficial (sources : DataSources) (ncm_digits : String) (data_emissao : D) :
    Option ORow :=
  sources.ncm_oficial.find? (fun r =>
    (r.codigo != "") &&
      ((pre8 (norm_ncm r.codigo) == pre8 ncm_digits) &&
        ((match r.data_inicio with
          | some i => !(dlt data_emissao i)
          | none => true) &&
         (match r.data_fim with
          | some f => !(dlt f data_emissao)
          | none => true))))

/-- Function `year_factor_transicao` of `rules.py`: linear scan for the first row whose
(stripped) `ano` cell equals `str(year)`; the selected row's percentage cell is
returned as parsed (`none` for an absent/empty/unparseable cell). -/
def year_factor_transicao (rows : List TRow) (year : Int)
    (campo_percentual : TRow → Option ℚ) : Option ℚ :=
  match rows.find? (fun r => trimS r.ano == toString year) with
  | some r => campo_percentual r
  | none => none

/-- Function `map_cst_ibs_cbs_from_cclastrib` of `rules.py`; the third component is the
`descricao` cell ("" when the mapping row has none). -/
def map_cst_ibs_cbs_from_cclastrib (sources : DataSources) (cclastrib_codigo : String) :
    String × String × String :=
  match sources.cst_ibs_cbs_map.find? (fun r => r.cclastrib_codigo == cclastrib_codigo) with
  | some r => (r.cst_ibs_cbs, r.cclass_trib, r.descricao)
  | none => ("000", "000001", "Tributação integral - padrão")

/-- Function `map_cst_ibs_cbs_from_categoria` of `rules.py` (all branches coincide in
the source; the branch structure is kept). -/
def map_cst_ibs_cbs_from_categoria (categoria : String) : String × String :=
  let cat := norm_code categoria
  if ["ESSENCIAL", "ALIMENTOS_IN_NATURA", "ALIMENTOS_PROCESSADOS"].contains cat then
    ("cst000", "000001")
  else if ["AGRO_INSUMOS", "EQUIPAMENTOS_MEDICOS"].contains cat then
    ("cst000", "000001")
  else
    ("cst000", "000001")

/-- Truthy values of the `aplica_zfm` / `apply_zfm` cell. -/
def zfm_flag (r : CRow) : Bool :=
  ["S", "SIM", "1", "TRUE", "T", "Y"].contains (norm_code (pyOrS r.aplica_zfm r.apply_zfm))

/-- Candidate filter of `pick_cclastrib` (inputs already normalized): a rule
matches iff every non-blank, non-wildcard cell equals the request field, the
`!` destination marker demands destination ≠ origin, and ZFM-flagged rules are
excluded outside a ZFM context. -/
def cclastrib_match (regime cfop uf_e uf_d cst_icms : String) (zfm_context : Bool)
    (r : CRow) : Bool :=
  if zfm_flag r && !zfm_context then false
  else
    let r_reg := norm_code (pyOrS r.regime_emitente (pyOrS r.regime r.regime_fiscal))
    let r_cfop := norm_code r.cfop
    let r_ufe := norm_code (pyOrS r.uf_origem r.uf_emitente)
    let r_ufd := norm_code (pyOrS r.uf_destino r.uf_destinatario)
    let r_cst := norm_code r.cst_icms
    (r_reg == "" || r_reg == "*" || r_reg == regime) &&
    ((r_cfop == "" || r_cfop == "*" || r_cfop == cfop) &&
     ((r_ufe == "" || r_ufe == "*" || r_ufe == uf_e) &&
      ((if r_ufd == "!" then uf_d != uf_e
        else r_ufd == "" || r_ufd == "*" || r_ufd == uf_d) &&
       (r_cst == "" || r_cst == "*" || r_cst == cst_icms))))

/-- Specificity score of `pick_cclastrib`: number of non-blank, non-wildcard
cells among the nine match keys, plus 10 for ZFM-flagged rules in a ZFM
context. -/
def cclastrib_score (zfm_context : Bool) (r : CRow) : Nat :=
  let fields := [r.regime_emitente, r.regime, r.regime_fiscal, r.cfop, r.uf_origem,
                 r.uf_emitente, r.uf_destino, r.uf_destinatario, r.cst_icms]
  let base := (fields.filter (fun v => trimS v != "" && trimS v != "*")).length
  if zfm_context && zfm_flag r then base + 10 else base

/-- Stable insertion into a list kept sorted by `f` descending: `x` is placed
before the first element whose score does not exceed its own, hence before any
later element of equal score. -/
def insDesc {α : Type} (f : α → Nat) (x : α) : List α → List α
  | [] => [x]
  | y :: ys => if f y ≤ f x then x :: y :: ys else y :: insDesc f x ys

/-- Stable sort by `f` descending, the unique order Python's stable
`list.sort(key=score, reverse=True)` also produces. -/
def sortDesc {α : Type} (f : α → Nat) : List α → List α
  | [] => []
  | x :: xs => insDesc f x (sortDesc f xs)

/-- Function `pick_cclastrib` of `rules.py`. -/
def pick_cclastrib (sources : DataSources) (regime cfop uf_e uf_d cst_icms : String)
    (zfm_context : Bool) : String × String × List CRow :=
  let regime := norm_code regime
  let cfop := norm_code cfop
  let uf_e := norm_code uf_e
  let uf_d := norm_code uf_d
  let cst_icms := norm_code cst_icms
  let candidatos :=
    sources.cclastrib.filter (cclastrib_match regime cfop uf_e uf_d cst_icms zfm_context)
  let sorted := sortDesc (cclastrib_score zfm_context) candidatos
  match sorted with
  | top :: _ => (pyOrS top.codigo "REGRA-GERAL", pyOrS top.descricao "Regra geral", sorted)
  | [] => ("REGRA-GERAL", "Regra geral (sem match em cclastrib.csv)", [])

/-- Function `should_apply_is` of `rules.py`. -/
def should_apply_is (data_emissao : D) (categoria : Option String) : Bool :=
  if data_emissao.y < 2027 then false
  else ["NOCIVO", "SELETIVO", "BEBIDAS", "CIGARROS"].contains (norm_code (categoria.getD ""))

/-- Decimal digits of `rem / den`, at most `fuel` of them (the rates in the
schedules terminate after a few digits). -/
def fracDigits : Nat → Nat → Nat → String
  | 0, _, _ => ""
  | _ + 1, 0, _ => ""
  | fuel + 1, rem, den =>
    let rem10 := rem * 10
    toString (rem10 / den) ++ fracDigits fuel (rem10 % den) den

/-- Rendering of a rate inside an f-string, modelling Python `str(float)` for
the terminating decimal values the schedules hold (`0.0`, `0.009`, ...). -/
def pyFloat (q : ℚ) : String :=
  let sign := if q < 0 then "-" else ""
  let qa := |q|
  let n := qa.num.toNat
  let den := qa.den
  let ip := n / den
  let rem := n % den
  let fr := if rem == 0 then "0" else fracDigits 17 rem den
  sign ++ toString ip ++ "." ++ fr

/-- Python `str()` of an `Optional[bool]`, as interpolated in f-strings. -/
def pyOptBoolStr : Option Bool → String
  | some true => "True"
  | some false => "False"
  | none => "None"

/-- A justification-trail entry (`{"regra": ..., "motivo": ..., "fonte": ...}`). -/
structure Fund where
  regra : String
  motivo : String
  fonte : String
deriving DecidableEq

/-- Return value of `compute_ibs_cbs` (`p_red_ibs`/`p_red_cbs`, constantly
`None` in the source, are omitted). -/
structure CalcOut where
  ano_referencia : Int
  aliquota_ibs : ℚ
  aliquota_cbs : ℚ
  fundamentos : List Fund
deriving DecidableEq

/-- Function `compute_ibs_cbs` of `rules.py`: the transition percentages for the
emission year, defaulted to `0.0` (`... or 0.0`), with their justification
entries. -/
def compute_ibs_cbs (sources : DataSources) (ncm : String) (data_emissao : D)
    (categoria_hint : Option String) : CalcOut :=
  let year := data_emissao.y
  let ibs := (year_factor_transicao sources.transicao_ibs year
    (fun r => r.percentual_ibs)).getD 0
  let cbs := (year_factor_transicao sources.transicao_cbs year
    (fun r => r.percentual_cbs)).getD 0
  { ano_referencia := year
    aliquota_ibs := ibs
    aliquota_cbs := cbs
    fundamentos :=
      [{ regra := "ANO DE REFERÊNCIA"
         motivo := "Cálculo realizado com base no ano " ++ toString year
         fonte := "data_emissao" },
       { regra := "TRANSIÇÃO IBS"
         motivo := "Percentual IBS aplicado para " ++ toString year ++ ": " ++ pyFloat ibs
         fonte := "transicao_ibs.csv" },
       { regra := "TRANSIÇÃO CBS"
         motivo := "Percentual CBS aplicado para " ++ toString year ++ ": " ++ pyFloat cbs
         fonte := "transicao_cbs.csv" }] }

/-- The confidence computation at the end of `classify`: base 0.6, +0.2 when a
master/exception row was found, +0.2 when the selected code is not the generic
sentinel, capped at 1.0. -/
def confianca_calc (row_found nao_generica : Bool) : ℚ :=
  let c : ℚ := 0.6 + (if row_found then 0.2 else 0) + (if nao_generica then 0.2 else 0)
  if 1 < c then 1 else c

/-- Expression `find_excecao(...) or find_in_master(...)` in `classify`: exception rows
take precedence, the master table is only consulted when no exception row
matches. -/
def ncm_row (sources : DataSources) (ncm_digits : String) (data_emissao : D) :
    Option MRow :=
  pyOrO (find_excecao sources ncm_digits data_emissao)
    (find_in_master sources ncm_digits data_emissao)

/-- Return value of `classify` (the nested result dict, flattened; the `flags`
sub-dict keeps the fields not already present at top level). -/
structure Result where
  categoria : Option String
  cclastrib_codigo : String
  cclastrib_descricao : String
  aliquota_ibs : ℚ
  aliquota_cbs : ℚ
  cst_ibs_cbs : String
  cclass_trib : String
  cfop_venda_industrializado : Option Bool
  emitente_zfm : Bool
  destinatario_zfm : Bool
  cadastro_suframa_emitente : Option String
  cadastro_suframa_emitente_ativo : Option Bool
  cadastro_suframa_destinatario : Option String
  cadastro_suframa_destinatario_ativo : Option Bool
  produzido_emitente : Option Bool
  beneficio_zfm_ibs_zero : Bool
  ncm_beneficiado_zfm : Bool
  confianca : ℚ
  alertas : List String
  pendencias : List String
  fundamentos_gerais : List Fund
  flag_compra_gov : Bool
  flag_ind_doacao : Bool
  flag_aplicar_is : Bool
  flag_produzido_zfm : Bool
deriving DecidableEq

/-- Function `classify` of `rules.py`, the orchestrating engine.  The `alertas`,
`pendencias` and `fundamentos_gerais` lists are assembled as the concatenation
of the per-section segments in the exact order the source appends them; the
temporary debug `print` calls are side effects without influence on the
result and are not modelled. -/
def classify (sources : DataSources)
    (regime cfop uf_emit uf_dest cst_icms ncm : String) (data_emissao : D)
    (compra_gov ind_doacao produzido_zfm emitente_zfm destinatario_zfm : Bool)
    (cadastro_suframa_emitente : Option String)
    (cadastro_suframa_emitente_ativo : Option Bool)
    (cadastro_suframa_destinatario : Option String)
    (cadastro_suframa_destinatario_ativo : Option Bool)
    (cod_municipio_destinatario : Option Int) : Result :=
  let cfop_code := norm_code cfop
  let cfop_row := build_cfop_index sources.cfop_rows cfop_code
  let produzido_emitente := detect_producao_emitente cfop_code cfop_row
  let cfop_venda_industrializado := detect_venda_industrializada cfop_code cfop_row
  let fund_cfop : List Fund :=
    match cfop_row with
    | some row =>
      let desc_cfop := row.descricao_cfop
      let motivo0 := trimS (cfop_code ++ " - " ++ desc_cfop)
      let motivo_cfop :=
        if produzido_emitente == some true then motivo0 ++ " (produção do emitente)"
        else motivo0
      [{ regra := "CFOP", motivo := motivo_cfop, fonte := "cfop.csv" }] ++
        (if cfop_venda_industrializado == some true then
          [{ regra := "CFOP INDUSTRIALIZADO"
             motivo := cfop_code ++ " indica venda de produto industrializado pelo emitente"
             fonte := "cfop.csv" }]
         else [])
    | none =>
      if cfop_code != "" then
        [{ regra := "CFOP"
           motivo := "CFOP " ++ cfop_code ++ " não encontrado em cfop.csv"
           fonte := "cfop.csv" }]
      else []
  let fund_zfm_flags : List Fund :=
    (if emitente_zfm then
      [{ regra := "ZFM EMITENTE"
         motivo := "Emitente localizado em área de ZFM/ALC (UF " ++ uf_emit ++ ")"
         fonte := "Entrada da API" }]
     else []) ++
    (if destinatario_zfm then
      [{ regra := "ZFM DESTINATÁRIO"
         motivo := "Destinatário localizado em área de ZFM/ALC (UF " ++ uf_dest ++
           (match cod_municipio_destinatario with
            | some c => if c != 0 then ", cMun " ++ toString c else ""
            | none => "") ++ ")"
         fonte := "Entrada da API" }]
     else [])
  let suf_emit := trimS (cadastro_suframa_emitente.getD "")
  let suf_dest := trimS (cadastro_suframa_destinatario.getD "")
  let pend_suf : List String :=
    (if suf_emit == "" then ["Cadastro SUFRAMA do emitente não informado"] else []) ++
    (if suf_dest == "" then ["Cadastro SUFRAMA do destinatário não informado"] else [])
  let fund_suf : List Fund :=
    (if suf_emit != "" then
      [{ regra := "SUFRAMA EMITENTE"
         motivo := "Cadastro " ++ suf_emit ++ " informado; ativo=" ++
           pyOptBoolStr cadastro_suframa_emitente_ativo
         fonte := "Entrada da API" }]
     else []) ++
    (if suf_dest != "" then
      [{ regra := "SUFRAMA DESTINATÁRIO"
         motivo := "Cadastro " ++ suf_dest ++ " informado; ativo=" ++
           pyOptBoolStr cadastro_suframa_destinatario_ativo
         fonte := "Entrada da API" }]
     else [])
  let alert_suf : List String :=
    (if suf_emit != "" && cadastro_suframa_emitente_ativo == some false then
      ["Cadastro SUFRAMA do emitente informado como inativo"]
     else []) ++
    (if suf_dest != "" && cadastro_suframa_destinatario_ativo == some false then
      ["Cadastro SUFRAMA do destinatário informado como inativo"]
     else [])
  let ncm_digits := norm_ncm ncm
  let ncm_beneficiado := is_ncm_beneficiado_zfm sources ncm_digits
  let row := ncm_row sources ncm_digits data_emissao
  let row_oficial :=
    match row with
    | some _ => none
    | none => find_in_oficial sources ncm_digits data_emissao
  let categoria : Option String :=
    match row with
    | some r => let c := trimS r.categoria; if c == "" then none else some c
    | none => none
  let fund_cat : List Fund :=
    match row with
    | some _ =>
      match categoria with
      | some c =>
        [{ regra := "CATEGORIA NCM"
           motivo := "Categoria=" ++ c
           fonte := "ncm_master.csv / ncm_excecoes.csv" }]
      | none => []
    | none =>
      match row_oficial with
      | some r =>
        [{ regra := "NCM OFICIAL (vigência confirmada)"
           motivo := "NCM encontrado em Tabela_NCM_Vigente_20251227.csv. Descrição: " ++
             pyOrS r.descricao "não informada"
           fonte := "Tabela_NCM_Vigente_20251227.csv" }]
      | none => []
  let pend_cat : List String :=
    match row with
    | some _ => []
    | none =>
      match row_oficial with
      | some _ =>
        ["NCM " ++ ncm_digits ++
          " encontrado na tabela oficial, mas sem categoria interna; aplicada regra geral."]
      | none =>
        ["NCM " ++ ncm_digits ++
          " não encontrado em ncm_master/ncm_excecoes nem na tabela oficial"]
  let alert_cat : List String :=
    match row with
    | some _ => []
    | none => ["Tributação aplicada pela regra geral (fallback)"]
  let fund_benef : List Fund :=
    if ncm_beneficiado then
      [{ regra := "NCM BENEFÍCIO ZFM"
         motivo := "NCM " ++ ncm_digits ++ " listado para benefício de IBS na ZFM"
         fonte := "ncm_beneficiados_zfm.csv" }]
    else []
  let zfm_context :=
    emitente_zfm && cadastro_suframa_emitente_ativo == some true &&
      produzido_zfm && ncm_beneficiado
  let pick := pick_cclastrib sources regime cfop uf_emit uf_dest cst_icms zfm_context
  let candidatos := pick.2.2
  let fallback_prod :=
    pick.1 == "REGRA-GERAL" && produzido_emitente == some true
  let cod1 :=
    if fallback_prod then
      if cfop_code == "5101" then "VDA-PROPRIA-INTRA"
      else if cfop_code == "6101" then "VDA-PROPRIA-INTER"
      else pick.1
    else pick.1
  let desc1 :=
    if fallback_prod then
      if cfop_code == "5101" then "Venda de produção do estabelecimento (interna)"
      else if cfop_code == "6101" then "Venda de produção do estabelecimento (interestadual)"
      else pick.2.1
    else pick.2.1
  let fund_sel : List Fund :=
    [{ regra := "cClasTrib", motivo := "Selecionado " ++ cod1, fonte := "cclastrib.csv" }]
  let m := map_cst_ibs_cbs_from_cclastrib sources cod1
  let fallback_cst := m.1 == "" || m.2.1 == ""
  let cst_ibs_cbs :=
    if fallback_cst then (map_cst_ibs_cbs_from_categoria (categoria.getD "GERAL")).1
    else m.1
  let cclass_trib :=
    if fallback_cst then (map_cst_ibs_cbs_from_categoria (categoria.getD "GERAL")).2
    else m.2.1
  let desc_cst := if fallback_cst then "" else m.2.2
  let fonte_cst :=
    if fallback_cst then "fallback categoria (map_cst_ibs_cbs_from_categoria)"
    else "cst_ibs_cbs_map.csv"
  let fund_cst : List Fund :=
    [{ regra := "CST IBS/CBS"
       motivo := "CST=" ++ cst_ibs_cbs ++ " cClassTrib=" ++ cclass_trib ++
         (if desc_cst != "" then " (" ++ desc_cst ++ ")" else "")
       fonte := fonte_cst }]
  let calco := compute_ibs_cbs sources ncm data_emissao categoria
  let beneficio_zfm_valido := zfm_context
  let aliq_ibs : ℚ := if beneficio_zfm_valido then 0 else calco.aliquota_ibs
  let aliq_cbs := calco.aliquota_cbs
  let aplica_selected :=
    match candidatos.head? with
    | some sel => zfm_flag sel
    | none => false
  let cod2 :=
    if beneficio_zfm_valido && !aplica_selected then "020003" else cod1
  let desc2 :=
    if beneficio_zfm_valido && !aplica_selected then
      "ZFM - Produção própria com benefício fiscal (LC 214/2025)"
    else desc1
  let fund_zfm_benef : List Fund :=
    if beneficio_zfm_valido then
      [{ regra := "LC 214/2025 (Capítulo ZFM, arts. 439-446)"
         motivo := "Emitente em ZFM com SUFRAMA ativa, item produzido na ZFM e NCM listado para benefício: IBS zerado."
         fonte := "lc214_2025.html / entrada da API / ncm_beneficiados_zfm.csv" },
       { regra := "cClasTrib ZFM"
         motivo := "Aplicado código " ++ cod2 ++ " (produção própria beneficiada na ZFM)"
         fonte := "cclastrib.csv" }]
    else []
  let alert_zfm : List String :=
    if beneficio_zfm_valido then []
    else if emitente_zfm && produzido_zfm && !ncm_beneficiado then
      ["NCM não listado para benefício ZFM; IBS calculado normalmente"]
    else []
  let aplicar_is := should_apply_is data_emissao categoria
  let fund_gov : List Fund :=
    if compra_gov then
      [{ regra := "COMPRA GOVERNAMENTAL"
         motivo := "Operação identificada como compra governamental"
         fonte := "Entrada da API" }]
    else []
  let confianca := confianca_calc row.isSome (cod2 != "REGRA-GERAL")
  { categoria := categoria
    cclastrib_codigo := cod2
    cclastrib_descricao := desc2
    aliquota_ibs := aliq_ibs
    aliquota_cbs := aliq_cbs
    cst_ibs_cbs := cst_ibs_cbs
    cclass_trib := cclass_trib
    cfop_venda_industrializado := cfop_venda_industrializado
    emitente_zfm := emitente_zfm
    destinatario_zfm := destinatario_zfm
    cadastro_suframa_emitente := if suf_emit == "" then none else some suf_emit
    cadastro_suframa_emitente_ativo := cadastro_suframa_emitente_ativo
    cadastro_suframa_destinatario := if suf_dest == "" then none else some suf_dest
    cadastro_suframa_destinatario_ativo := cadastro_suframa_destinatario_ativo
    produzido_emitente := produzido_emitente
    beneficio_zfm_ibs_zero := beneficio_zfm_valido
    ncm_beneficiado_zfm := ncm_beneficiado
    confianca := confianca
    alertas := alert_suf ++ alert_cat ++ alert_zfm
    pendencias := pend_suf ++ pend_cat
    fundamentos_gerais :=
      fund_cfop ++ fund_zfm_flags ++ fund_suf ++ fund_cat ++ fund_benef ++
        fund_sel ++ fund_cst ++ calco.fundamentos ++ fund_zfm_benef ++ fund_gov
    flag_compra_gov := compra_gov
    flag_ind_doacao := ind_doacao
    flag_aplicar_is := aplicar_is
    flag_produzido_zfm := produzido_zfm }

/-- The classification request as the agent reads it (`agent.py`); only the
fields consulted by `handle` for the cache key and the payload derivation are
modelled.  String-typed S/N flags arrive as optional raw strings exactly as in
the HTTP schema; `valor_item` is the declared monetary item value. -/
structure ClassifyRequest where
  ano_emissao : Option Int
  regime_fiscal_emitente : String
  cfop : String
  uf_emitente : String
  uf_destinatario : String
  cst_icms : String
  ncm : String
  valor_item : Option ℚ
  cod_municipio_fg_ibs : Option Int
  cod_municipio_destinatario : Option Int
  compra_governo : Bool
  ind_doacao : Bool
  produzido_zfm : Option String
  emitente_zona_franca_manaus : Option String
  destinatario_zona_franca_manaus : Option String
  cadastro_suframa_emitente : Option String
  cadastro_suframa_emitente_ativo : Option String
  cadastro_suframa_destinatario : Option String
  cadastro_suframa_destinatario_ativo : Option String
deriving DecidableEq

/-- Function `make_cache_key` of `cache.py`: `"|".join(str(p).strip().upper() for p in parts)`. -/
def make_cache_key (parts : List String) : String :=
  String.intercalate "|" (parts.map (fun p => norm_code p))

/-- Function `parse_sn` inside `handle`: `str(value).strip().upper() == "S"`, `None`
passed through. -/
def parse_sn (value : Option String) : Option Bool :=
  match value with
  | none => none
  | some s => some (norm_code s == "S")

/-- Expression `(req.x or "").strip().upper() == "S"` for the S/N zone flags of `handle`. -/
def sn_flag (v : Option String) : Bool := norm_code (v.getD "") == "S"

/-- Zero-padded two-digit rendering used by `date.isoformat`. -/
def pad2 (n : Int) : String :=
  if 0 ≤ n ∧ n < 10 then "0" ++ toString n else toString n

/-- Python `date.isoformat()` (years of four digits, as all emission years are). -/
def isoD (x : D) : String :=
  toString x.y ++ "-" ++ pad2 x.m ++ "-" ++ pad2 x.dd

/-- Emission date chosen by `handle`: January 1st of `ano_emissao` when given,
today otherwise (the ambient date is passed explicitly). -/
def handle_data_emissao (req : ClassifyRequest) (today : D) : D :=
  match req.ano_emissao with
  | some y => ⟨y, 1, 1⟩
  | none => today

/-- The cache key built by `CClastribAgent.handle` via `make_cache_key`,
transcribed part for part from `agent.py`. -/
def handle_cache_key (req : ClassifyRequest) (today : D) : String :=
  let data_emissao := handle_data_emissao req today
  let ncm_digits := norm_ncm req.ncm
  let produzido_zfm := sn_flag req.produzido_zfm
  let emitente_zfm := sn_flag req.emitente_zona_franca_manaus
  let destinatario_zfm := sn_flag req.destinatario_zona_franca_manaus
  let cadastro_suframa_emitente := trimS (req.cadastro_suframa_emitente.getD "")
  let cadastro_suframa_destinatario := trimS (req.cadastro_suframa_destinatario.getD "")
  let cadastro_suframa_emitente_ativo := parse_sn req.cadastro_suframa_emitente_ativo
  let cadastro_suframa_destinatario_ativo := parse_sn req.cadastro_suframa_destinatario_ativo
  make_cache_key
    [req.regime_fiscal_emitente,
     req.cfop,
     req.uf_emitente,
     req.uf_destinatario,
     req.cst_icms,
     ncm_digits,
     isoD data_emissao,
     if req.compra_governo then "GOV" else "NOGOV",
     if req.ind_doacao then "DOA" else "NODOA",
     if produzido_zfm then "ZFM" else "NOZFM",
     if emitente_zfm then "EZFM" else "NOEZFM",
     if destinatario_zfm then "DZFM" else "NODZFM",
     "SUFE_" ++ (if cadastro_suframa_emitente != "" then "P" else "NP") ++ "_" ++
       (match cadastro_suframa_emitente_ativo with
        | some true => "AT"
        | some false => "IN"
        | none => "NA"),
     "SUFD_" ++ (if cadastro_suframa_destinatario != "" then "P" else "NP") ++ "_" ++
       (match cadastro_suframa_destinatario_ativo with
        | some true => "AT"
        | some false => "IN"
        | none => "NA")]

/-- Python `round` (banker's rounding) on an exact value. -/
def pyRound (x : ℚ) : Int :=
  let f : Int := ⌊x⌋
  let r := x - f
  if r < 1/2 then f
  else if 1/2 < r then f + 1
  else if f % 2 = 0 then f else f + 1

/-- Function `round_money` inside `handle`: `round(float(v), 2)`. -/
def round_money (v : ℚ) : ℚ := (pyRound (v * 100) : ℚ) / 100

/-- The `vItem` field of the response payload built by `handle`
(`ProdutoTags(vItem=round_money(req.valor_item), ...)`). -/
def handle_vItem (req : ClassifyRequest) : Option ℚ :=
  req.valor_item.map round_money

/-- Witness for C1 at a concrete eligible request: flag set and IBS forced to 0. -/
def S1w : DataSources :=
  { ncm_master := [], ncm_excecoes := [], ncm_oficial := [],
    transicao_ibs := [⟨"2026", some (1/10), none⟩], transicao_cbs := [],
    cclastrib := [], cst_ibs_cbs_map := [], cfop_rows := [],
    ncm_beneficiados_zfm := [⟨"11112222"⟩] }

/-- Request template for C2: all fields fixed, `valor_item` varies. -/
def req_c2 (v : Option ℚ) : ClassifyRequest :=
  { ano_emissao := some 2026, regime_fiscal_emitente := "SN", cfop := "5102",
    uf_emitente := "SP", uf_destinatario := "RJ", cst_icms := "102",
    ncm := "1234.56.78", valor_item := v, cod_municipio_fg_ibs := none,
    cod_municipio_destinatario := none, compra_governo := false, ind_doacao := false,
    produzido_zfm := none, emitente_zona_franca_manaus := none,
    destinatario_zona_franca_manaus := none, cadastro_suframa_emitente := none,
    cadastro_suframa_emitente_ativo := none, cadastro_suframa_destinatario := none,
    cadastro_suframa_destinatario_ativo := none }

/-- Reference-table snapshot for the C4 end-to-end example: only the CFOP
descriptor table is populated (own-production outbound 5101); the product
code has no master/exception/official entry and every other table is empty. -/
def S4 : DataSources :=
  { ncm_master := [], ncm_excecoes := [], ncm_oficial := [], transicao_ibs := [],
    transicao_cbs := [], cclastrib := [], cst_ibs_cbs_map := [],
    cfop_rows := [⟨"5101", "Venda de produção do estabelecimento"⟩],
    ncm_beneficiados_zfm := [] }

/-- The C4 example request evaluated by the engine: regime "standard", CFOP
5101, SP→SP, the given tax-situation code, product code 9999.99.99 (absent
from every table), emission date 2026-01-01, all zone flags false, SUFRAMA
registries present and active. -/
def res4 (cst_icms : String) : Result :=
  classify S4 "standard" "5101" "SP" "SP" cst_icms "9999.99.99" ⟨2026, 1, 1⟩
    false false false false false (some "SUF123") (some true) (some "SUF456") (some true)
    none

/-- Modelled from the spec: the claimed validity-window semantics — inclusive
bounds, an absent bound (start or end) leaves that side unbounded and is
always satisfied — for comparison against the code's `dentro_da_vigencia`. -/
def vigencia_spec (data : D) (inicio fim : Option D) : Bool :=
  (match inicio with
   | some i => !(dlt data i)
   | none => true) &&
  (match fim with
   | some f => !(dlt f data)
   | none => true)

/-- Exception row with an absent start bound and an elapsed end bound. -/
def exRow5 : MRow := ⟨"12345678", none, some ⟨2020, 1, 1⟩, "CATX"⟩

/-- Snapshot holding only that exception row. -/
def S5 : DataSources :=
  { ncm_master := [], ncm_excecoes := [exRow5], ncm_oficial := [], transicao_ibs := [],
    transicao_cbs := [], cclastrib := [], cst_ibs_cbs_map := [], cfop_rows := [],
    ncm_beneficiados_zfm := [] }

/-- Empty snapshot for the C8 witness. -/
def S8 : DataSources :=
  { ncm_master := [], ncm_excecoes := [], ncm_oficial := [], transicao_ibs := [],
    transicao_cbs := [], cclastrib := [], cst_ibs_cbs_map := [], cfop_rows := [],
    ncm_beneficiados_zfm := [] }

/-- Master row used by the C9 counterexample (category present, so no
general-rule fallback alert is emitted). -/
def mRow9 : MRow := ⟨"11112222", none, none, "ESSENCIAL"⟩

/-- Snapshot for C9: the product code is known to the master table but absent
from the (empty) zone-benefit list. -/
def S9 : DataSources :=
  { ncm_master := [mRow9], ncm_excecoes := [], ncm_oficial := [], transicao_ibs := [],
    transicao_cbs := [], cclastrib := [], cst_ibs_cbs_map := [], cfop_rows := [],
    ncm_beneficiados_zfm := [] }

/-- Two classification rules for the C7 witness. -/
def crow1 : CRow :=
  { codigo := "A1", descricao := "regra A", regime_emitente := "SN", regime := "",
    regime_fiscal := "", cfop := "5102", uf_origem := "", uf_emitente := "",
    uf_destino := "", uf_destinatario := "", cst_icms := "", aplica_zfm := "",
    apply_zfm := "" }

def crow2 : CRow :=
  { codigo := "B2", descricao := "regra B", regime_emitente := "", regime := "",
    regime_fiscal := "", cfop := "5102", uf_origem := "", uf_emitente := "",
    uf_destino := "", uf_destinatario := "", cst_icms := "", aplica_zfm := "",
    apply_zfm := "" }

def S7 : DataSources :=
  { ncm_master := [], ncm_excecoes := [], ncm_oficial := [], transicao_ibs := [],
    transicao_cbs := [], cclastrib := [crow1, crow2], cst_ibs_cbs_map := [],
    cfop_rows := [], ncm_beneficiados_zfm := [] }

/-- Descriptor table for the C6 witness. -/
def cfopW : List CfopRow := [⟨"5101", "Venda de produção do estabelecimento"⟩]

/-! ### Helper lemmas: normalization, stable sorting, index lookup -/

theorem find?_pred {α : Type} {p : α → Bool} :
    ∀ {l : List α} {a : α}, l.find? p = some a → p a = true := by
  intro l
  induction l with
  | nil => intro a h; simp at h
  | cons x t ih =>
    intro a h
    by_cases hx : p x
    · rw [List.find?_cons_of_pos _ hx] at h
      cases h
      exact hx
    · rw [List.find?_cons_of_neg _ hx] at h
      exact ih h

theorem length_dropWhile_le {α : Type} (p : α → Bool) (l : List α) :
    (l.dropWhile p).length ≤ l.length := by
  induction l with
  | nil => simp
  | cons a t ih =>
    by_cases h : p a
    · rw [List.dropWhile_cons, if_pos h]
      exact Nat.le_trans ih (Nat.le_succ _)
    · rw [List.dropWhile_cons, if_neg h]

theorem upChar_upChar (c : Char) : upChar (upChar c) = upChar c := by
  rcases h : upPairs.find? (fun p => p.1 == c) with _ | p
  · have hc : upChar c = c := by simp [upChar, h]
    rw [hc]
    exact hc
  · have hc : upChar c = p.2 := by simp [upChar, h]
    have hm : p ∈ upPairs := List.mem_of_find?_eq_some h
    rw [hc]
    fin_cases hm <;> decide

theorem is_space_upChar (c : Char) : is_space_char (upChar c) = is_space_char c := by
  rcases h : upPairs.find? (fun p => p.1 == c) with _ | p
  · have hc : upChar c = c := by simp [upChar, h]
    rw [hc]
  · have hc : upChar c = p.2 := by simp [upChar, h]
    have hp := find?_pred h
    have hm : p ∈ upPairs := List.mem_of_find?_eq_some h
    have hc2 : p.1 = c := by simpa using hp
    rw [hc, ← hc2]
    fin_cases hm <;> decide

theorem dropWhile_idem {α : Type} (p : α → Bool) (l : List α) :
    (l.dropWhile p).dropWhile p = l.dropWhile p := by
  induction l with
  | nil => rfl
  | cons a t ih =>
    by_cases h : p a <;> simp [List.dropWhile_cons, h, ih]

theorem exists_suffix_dropWhile {α : Type} (p : α → Bool) (l : List α) :
    ∃ s, s ++ l.dropWhile p = l := by
  induction l with
  | nil => exact ⟨[], rfl⟩
  | cons a t ih =>
    by_cases h : p a
    · obtain ⟨s, hs⟩ := ih
      exact ⟨a :: s, by simp [List.dropWhile_cons, h, hs]⟩
    · exact ⟨[], by simp [List.dropWhile_cons, h]⟩

theorem dropWhile_eq_self_of_append {α : Type} (p : α → Bool) (t s m : List α)
    (hm : t ++ s = m) (h : m.dropWhile p = m) : t.dropWhile p = t := by
  cases t with
  | nil => rfl
  | cons a t2 =>
    subst hm
    by_cases hp : p a
    · exfalso
      have hlen := length_dropWhile_le p (t2 ++ s)
      rw [List.cons_append, List.dropWhile_cons, if_pos hp] at h
      have hlen2 : (List.dropWhile p (t2 ++ s)).length = (t2 ++ s).length + 1 := by
        rw [h]
        rfl
      omega
    · simp [List.dropWhile_cons, hp]

theorem noPref_rtrim (m : List Char)
    (h : m.dropWhile is_space_char = m) :
    (rtrimChars m).dropWhile is_space_char = rtrimChars m := by
  obtain ⟨s, hs⟩ := exists_suffix_dropWhile is_space_char m.reverse
  have hm : rtrimChars m ++ s.reverse = m := by
    have := congrArg List.reverse hs
    simpa [rtrimChars, List.reverse_append] using this
  exact dropWhile_eq_self_of_append is_space_char _ _ m hm h

theorem trimChars_idem (l : List Char) : trimChars (trimChars l) = trimChars l := by
  have h1 : (ltrimChars l).dropWhile is_space_char = ltrimChars l :=
    dropWhile_idem is_space_char l
  have hlt : (trimChars l).dropWhile is_space_char = trimChars l :=
    noPref_rtrim (ltrimChars l) h1
  have hrev : (trimChars l).reverse = (ltrimChars l).reverse.dropWhile is_space_char := by
    simp [trimChars, rtrimChars]
  have hrt : rtrimChars (trimChars l) = trimChars l := by
    unfold rtrimChars
    rw [hrev, dropWhile_idem, ← hrev, List.reverse_reverse]
  calc trimChars (trimChars l)
      = rtrimChars (ltrimChars (trimChars l)) := rfl
    _ = rtrimChars (trimChars l) := by rw [show ltrimChars (trimChars l) = trimChars l from hlt]
    _ = trimChars l := hrt

theorem dropWhile_map_upChar (l : List Char) :
    (l.map upChar).dropWhile is_space_char = (l.dropWhile is_space_char).map upChar := by
  induction l with
  | nil => rfl
  | cons a t ih =>
    by_cases h : is_space_char a
    · have h2 : is_space_char (upChar a) = true := by rw [is_space_upChar]; exact h
      simp [List.dropWhile_cons, h, h2, ih]
    · have h2 : is_space_char (upChar a) = false := by
        rw [is_space_upChar]; exact eq_false_of_ne_true h
      simp [List.dropWhile_cons, h, h2]

theorem trimChars_map_upChar (l : List Char) :
    trimChars (l.map upChar) = (trimChars l).map upChar := by
  unfold trimChars rtrimChars ltrimChars
  rw [dropWhile_map_upChar, ← List.map_reverse, dropWhile_map_upChar, ← List.map_reverse]

theorem map_upChar_upChar (l : List Char) :
    (l.map upChar).map upChar = l.map upChar := by
  induction l with
  | nil => rfl
  | cons a t ih => simp [upChar_upChar, ih]

theorem norm_code_idem (s : String) : norm_code (norm_code s) = norm_code s := by
  show ((trimChars ((trimChars s.toList).map upChar)).map upChar).asString
      = ((trimChars s.toList).map upChar).asString
  rw [trimChars_map_upChar, map_upChar_upChar, trimChars_idem]

theorem mem_insDesc {α : Type} (f : α → Nat) (x a : α) (l : List α) :
    a ∈ insDesc f x l ↔ a = x ∨ a ∈ l := by
  induction l with
  | nil => simp [insDesc]
  | cons y ys ih =>
    by_cases h : f y ≤ f x
    · simp [insDesc, h]
    · simp [insDesc, h, ih]
      tauto

theorem pairwise_insDesc {α : Type} (f : α → Nat) (x : α) (l : List α)
    (h : l.Pairwise (fun a b => f b ≤ f a)) :
    (insDesc f x l).Pairwise (fun a b => f b ≤ f a) := by
  induction l with
  | nil => simp [insDesc]
  | cons y ys ih =>
    rcases List.pairwise_cons.mp h with ⟨hy, hys⟩
    by_cases hc : f y ≤ f x
    · rw [insDesc, if_pos hc]
      refine List.pairwise_cons.mpr ⟨?_, h⟩
      intro b hb
      rcases List.mem_cons.mp hb with hb | hb
      · subst hb; exact hc
      · exact Nat.le_trans (hy b hb) hc
    · rw [insDesc, if_neg hc]
      refine List.pairwise_cons.mpr ⟨?_, ih hys⟩
      intro b hb
      rcases (mem_insDesc f x b ys).mp hb with hb | hb
      · subst hb
        exact Nat.le_of_lt (Nat.lt_of_not_le hc)
      · exact hy b hb

theorem pairwise_sortDesc {α : Type} (f : α → Nat) (l : List α) :
    (sortDesc f l).Pairwise (fun a b => f b ≤ f a) := by
  induction l with
  | nil => simp [sortDesc]
  | cons x xs ih => exact pairwise_insDesc f x (sortDesc f xs) ih

theorem filter_insDesc {α : Type} (f : α → Nat) (k : Nat) (x : α) (l : List α) :
    (insDesc f x l).filter (fun a => f a == k)
      = if f x == k then x :: l.filter (fun a => f a == k)
        else l.filter (fun a => f a == k) := by
  induction l with
  | nil =>
    by_cases h : (f x == k) = true <;> simp [insDesc, List.filter_cons, h]
  | cons y ys ih =>
    by_cases hc : f y ≤ f x
    · rw [insDesc, if_pos hc]
      by_cases h : (f x == k) = true <;> simp [List.filter_cons, h]
    · rw [insDesc, if_neg hc]
      have hxy : f x < f y := Nat.lt_of_not_le hc
      by_cases h : (f x == k) = true
      · have hxk : f x = k := by simpa using h
        have hyk : (f y == k) = false := by
          simp only [beq_eq_false_iff_ne, ne_eq]
          omega
        simp [List.filter_cons, h, hyk, ih]
      · simp [List.filter_cons, h, ih]

theorem filter_sortDesc {α : Type} (f : α → Nat) (k : Nat) (l : List α) :
    (sortDesc f l).filter (fun a => f a == k) = l.filter (fun a => f a == k) := by
  induction l with
  | nil => rfl
  | cons x xs ih =>
    rw [sortDesc, filter_insDesc]
    by_cases h : (f x == k) = true <;> simp [List.filter_cons, h, ih]

theorem perm_insDesc {α : Type} (f : α → Nat) (x : α) (l : List α) :
    (insDesc f x l).Perm (x :: l) := by
  induction l with
  | nil => exact List.Perm.refl _
  | cons y ys ih =>
    by_cases hc : f y ≤ f x
    · rw [insDesc, if_pos hc]
    · rw [insDesc, if_neg hc]
      exact (List.Perm.cons y ih).trans (List.Perm.swap x y ys)

theorem perm_sortDesc {α : Type} (f : α → Nat) (l : List α) :
    (sortDesc f l).Perm l := by
  induction l with
  | nil => exact List.Perm.refl _
  | cons x xs ih =>
    exact (perm_insDesc f x (sortDesc f xs)).trans (List.Perm.cons x ih)

theorem mem_of_getLast? {α : Type} :
    ∀ {l : List α} {a : α}, l.getLast? = some a → a ∈ l := by
  intro l
  induction l with
  | nil => intro a h; simp at h
  | cons x t ih =>
    intro a h
    cases t with
    | nil =>
      simp [List.getLast?] at h
      simp [h]
    | cons y t2 =>
      rw [List.getLast?_cons_cons] at h
      exact List.mem_cons_of_mem x (ih h)

/-- A successful CFOP-dictionary lookup implies the key is non-empty and is a
fixed point of `norm_code` (keys are produced by `norm_code` at build time). -/
theorem build_cfop_index_key {rows : List CfopRow} {code : String} {r : CfopRow}
    (h : build_cfop_index rows code = some r) :
    norm_code code = code ∧ code ≠ "" := by
  have hmem := mem_of_getLast? h
  have hpred := (List.mem_filter.mp hmem).2
  have h1 : norm_code r.cfop ≠ "" := by
    have := (Bool.and_eq_true _ _).mp hpred |>.1
    simpa using this
  have h2 : norm_code r.cfop = code := by
    have := (Bool.and_eq_true _ _).mp hpred |>.2
    simpa using this
  constructor
  · rw [← h2, norm_code_idem]
  · rw [← h2]
    exact h1

/-! ### Claim theorems -/

/-- Bounds of the confidence computation, by exhausting the two Booleans. -/
theorem confianca_calc_bounds (a b : Bool) :
    0 ≤ confianca_calc a b ∧ confianca_calc a b ≤ 1 := by
  cases a <;> cases b <;> constructor <;> norm_num [confianca_calc]

/-- Claim C1: the zone-benefit (ZFM) zero rate is applied if and only if all
four eligibility conditions hold simultaneously — issuer in the zone, issuer
SUFRAMA registry explicitly active (`some true`, not merely present or
unknown), item flagged zone-produced, and NCM listed in the zone-benefit
table: the result's `beneficio_zfm_ibs_zero` flag equals exactly that
conjunction (so flipping any single condition to false removes the
override), and the IBS rate is 0 when the flag holds while otherwise it is
the transition-schedule rate. -/
theorem c1_zfm_zero_rate_iff (S : DataSources)
    (regime cfop uf_emit uf_dest cst_icms ncm : String) (de : D)
    (cg ido pz ez dz : Bool) (cse : Option String) (csea : Option Bool)
    (csd : Option String) (csda : Option Bool) (cm : Option Int) :
    let res := classify S regime cfop uf_emit uf_dest cst_icms ncm de cg ido pz ez dz
      cse csea csd csda cm
    res.beneficio_zfm_ibs_zero
        = (ez && csea == some true && pz && is_ncm_beneficiado_zfm S (norm_ncm ncm))
      ∧ res.aliquota_ibs
        = (if res.beneficio_zfm_ibs_zero then 0
           else (year_factor_transicao S.transicao_ibs de.y (fun r => r.percentual_ibs)).getD 0) :=
  ⟨rfl, rfl⟩

theorem c1_zfm_zero_rate_iff_witness :
    (classify S1w "SN" "5101" "AM" "SP" "000" "1111.22.22" ⟨2026, 1, 1⟩
      false false true true false (some "123") (some true) none none none).beneficio_zfm_ibs_zero
        = true
    ∧ (classify S1w "SN" "5101" "AM" "SP" "000" "1111.22.22" ⟨2026, 1, 1⟩
      false false true true false (some "123") (some true) none none none).aliquota_ibs = 0 := by
  have h := c1_zfm_zero_rate_iff S1w "SN" "5101" "AM" "SP" "000" "1111.22.22" ⟨2026, 1, 1⟩
    false false true true false (some "123") (some true) none none none
  have hflag : (classify S1w "SN" "5101" "AM" "SP" "000" "1111.22.22" ⟨2026, 1, 1⟩
      false false true true false (some "123") (some true) none none none).beneficio_zfm_ibs_zero
      = true := h.1.trans (by decide)
  refine ⟨hflag, ?_⟩
  rw [h.2, hflag]
  simp

/-- Claim C10 (frame property of the zone-benefit override): the CBS rate
always equals the value resolved from the CBS transition schedule for the
emission year (or the 0.0 default), whether or not the zero-rate override
applies, and the override touches the IBS rate only (IBS is 0 under the
override and the IBS schedule value otherwise). -/
theorem c10_cbs_frame (S : DataSources)
    (regime cfop uf_emit uf_dest cst_icms ncm : String) (de : D)
    (cg ido pz ez dz : Bool) (cse : Option String) (csea : Option Bool)
    (csd : Option String) (csda : Option Bool) (cm : Option Int) :
    let res := classify S regime cfop uf_emit uf_dest cst_icms ncm de cg ido pz ez dz
      cse csea csd csda cm
    res.aliquota_cbs
        = (year_factor_transicao S.transicao_cbs de.y (fun r => r.percentual_cbs)).getD 0
      ∧ res.aliquota_ibs
        = (if res.beneficio_zfm_ibs_zero then 0
           else (year_factor_transicao S.transicao_ibs de.y (fun r => r.percentual_ibs)).getD 0) :=
  ⟨rfl, rfl⟩

/-- Witness for C10 at a concrete eligible request: the CBS rate equals the
schedule value even though the IBS zero-rate override applies. -/
theorem c10_cbs_frame_witness :
    (classify S1w "SN" "5101" "AM" "SP" "000" "1111.22.22" ⟨2026, 1, 1⟩
      false false true true false (some "123") (some true) none none none).aliquota_cbs
      = (year_factor_transicao S1w.transicao_cbs 2026 (fun r => r.percentual_cbs)).getD 0 :=
  (c10_cbs_frame S1w "SN" "5101" "AM" "SP" "000" "1111.22.22" ⟨2026, 1, 1⟩
    false false true true false (some "123") (some true) none none none).1

/-- Claim C3: the confidence equals base 0.6, +0.2 when a product-category row
was found (exception or master), +0.2 when the selected code is not the
generic sentinel, capped at 1.0 (`confianca_calc`); hence it always lies in
[0, 1] and is monotonically non-decreasing in each condition with the other
fixed. -/
theorem c3_confianca_spec (S : DataSources)
    (regime cfop uf_emit uf_dest cst_icms ncm : String) (de : D)
    (cg ido pz ez dz : Bool) (cse : Option String) (csea : Option Bool)
    (csd : Option String) (csda : Option Bool) (cm : Option Int) :
    let res := classify S regime cfop uf_emit uf_dest cst_icms ncm de cg ido pz ez dz
      cse csea csd csda cm
    res.confianca
        = confianca_calc (ncm_row S (norm_ncm ncm) de).isSome
            (res.cclastrib_codigo != "REGRA-GERAL")
      ∧ (0 ≤ res.confianca ∧ res.confianca ≤ 1)
      ∧ (∀ b : Bool, confianca_calc false b ≤ confianca_calc true b)
      ∧ (∀ a : Bool, confianca_calc a false ≤ confianca_calc a true) := by
  refine ⟨rfl, ?_, ?_, ?_⟩
  · exact confianca_calc_bounds _ _
  · intro b
    cases b <;> norm_num [confianca_calc]
  · intro a
    cases a <;> norm_num [confianca_calc]

/-- Witness for C3: concrete bounds instance. -/
theorem c3_confianca_spec_witness :
    0 ≤ (classify S1w "SN" "5101" "AM" "SP" "000" "1111.22.22" ⟨2026, 1, 1⟩
      false false true true false (some "123") (some true) none none none).confianca :=
  (c3_confianca_spec S1w "SN" "5101" "AM" "SP" "000" "1111.22.22" ⟨2026, 1, 1⟩
    false false true true false (some "123") (some true) none none none).2.1.1

/-- Claim C2 is violated by the code: two requests that differ only in the
declared item value build the same cache key (the key omits `valor_item`),
yet their responses differ — the payload `vItem` field is the rounded item
value, so the cached response of the first request is returned for the
second with the wrong monetary values. -/
theorem c2_cache_key_ignores_valor_item :
    handle_cache_key (req_c2 (some 10)) ⟨2025, 6, 1⟩
        = handle_cache_key (req_c2 (some 20)) ⟨2025, 6, 1⟩
      ∧ handle_vItem (req_c2 (some 10)) ≠ handle_vItem (req_c2 (some 20)) := by
  constructor
  · rfl
  · simp only [handle_vItem, req_c2, Option.map_some, ne_eq, Option.some.injEq]
    norm_num [round_money, pyRound]

/-- Claim C4 (end-to-end): regime "standard", CFOP 5101 whose descriptor
indicates own production, SP→SP, arbitrary tax-situation code, a product code
with no master or exception entry, emission year 2026, all zone flags false
(and SUFRAMA registries present and active, so that the only pending-item is
the category one): the classification falls back to the production-specific
code (not the bare generic sentinel), exactly one pending-item and one alert
are recorded for the absent category, and the confidence is 0.8. -/
theorem c4_end_to_end (cst_icms : String) :
    (res4 cst_icms).cclastrib_codigo = "VDA-PROPRIA-INTRA"
      ∧ (res4 cst_icms).cclastrib_codigo ≠ "REGRA-GERAL"
      ∧ (res4 cst_icms).produzido_emitente = some true
      ∧ (res4 cst_icms).pendencias
          = ["NCM 99999999 não encontrado em ncm_master/ncm_excecoes nem na tabela oficial"]
      ∧ (res4 cst_icms).alertas = ["Tributação aplicada pela regra geral (fallback)"]
      ∧ (res4 cst_icms).confianca = 0.8 := by
  have h1 : (res4 cst_icms).cclastrib_codigo = "VDA-PROPRIA-INTRA" := rfl
  refine ⟨h1, by rw [h1]; decide, rfl, rfl, rfl, ?_⟩
  show confianca_calc false true = 0.8
  norm_num [confianca_calc]

/-- Witness for C4 at a concrete tax-situation code. -/
theorem c4_end_to_end_witness :
    (res4 "102").confianca = 0.8 :=
  (c4_end_to_end "102").2.2.2.2.2

/-- Counterexample to claim C5 as stated: on 2025-01-01 the exception row
`exRow5` (no start bound, end bound 2020-01-01) is *returned* by
`find_excecao`, although the claimed window semantics (absent bound leaves
only that side unbounded, the other bound still checked inclusively) rejects
the date — the code's `dentro_da_vigencia` skips the end check entirely when
the start bound is absent. -/
theorem c5_counterexample :
    find_excecao S5 "12345678" ⟨2025, 1, 1⟩ = some exRow5
      ∧ vigencia_spec ⟨2025, 1, 1⟩ exRow5.vigencia_inicio exRow5.vigencia_fim = false :=
  ⟨rfl, rfl⟩

/-- Claim C5 as amended: the exception table is checked first and the master
table only when no exception row matches, comparing the first 8 normalized
digits; master rows check both inclusive bounds independently (an absent bound
leaves that side unbounded); exception rows check the inclusive start bound
and then the inclusive end bound, except that an absent start bound makes the
whole window count as satisfied (the end bound is then not checked). -/
theorem c5_resolucao_ncm (S : DataSources) (nd : String) (de : D) :
    (∀ r, find_excecao S nd de = some r → ncm_row S nd de = some r)
      ∧ (find_excecao S nd de = none → ncm_row S nd de = find_in_master S nd de)
      ∧ (∀ i f, dentro_da_vigencia de (some i) f = vigencia_spec de (some i) f)
      ∧ (∀ f, dentro_da_vigencia de none f = true)
      ∧ find_in_master S nd de
          = S.ncm_master.find? (fun r =>
              (r.ncm != "") &&
                ((pre8 (norm_ncm r.ncm) == pre8 nd) &&
                  vigencia_spec de r.vigencia_inicio r.vigencia_fim)) := by
  refine ⟨?_, ?_, ?_, ?_, rfl⟩
  · intro r h
    simp [ncm_row, pyOrO, h]
  · intro h
    simp [ncm_row, pyOrO, h]
  · intro i f
    cases hdi : dlt de i
    · cases f with
      | none => simp [dentro_da_vigencia, vigencia_spec, hdi]
      | some f2 => cases hdf : dlt f2 de <;>
          simp [dentro_da_vigencia, vigencia_spec, hdi, hdf]
    · cases f with
      | none => simp [dentro_da_vigencia, vigencia_spec, hdi]
      | some f2 => simp [dentro_da_vigencia, vigencia_spec, hdi]
  · intro f
    rfl

/-- Witness for the amended C5: the exception row is what `classify` resolves. -/
theorem c5_resolucao_ncm_witness :
    ncm_row S5 "12345678" ⟨2025, 1, 1⟩ = some exRow5 :=
  (c5_resolucao_ncm S5 "12345678" ⟨2025, 1, 1⟩).1 exRow5 rfl

/-- Claim C8: the rate-transition resolver linearly scans the schedule and
returns the (decimal-fraction) percentage cell of the first row whose year
matches; no matching row (or an empty cell, which the parsed cell models as
`none`) yields `none`, and the engine then defaults the applied rate to 0.0 —
for either tax, IBS or CBS — while still appending the justification entry
stating the applied percentage for that year. -/
theorem c8_rate_transition (rows : List TRow) (year : Int) (campo : TRow → Option ℚ) :
    (rows.find? (fun r => trimS r.ano == toString year) = none →
      year_factor_transicao rows year campo = none)
      ∧ (∀ r, rows.find? (fun r => trimS r.ano == toString year) = some r →
          year_factor_transicao rows year campo = campo r)
      ∧ (∀ (S : DataSources) (ncm : String) (de : D) (cat : Option String),
          year_factor_transicao S.transicao_ibs de.y (fun r => r.percentual_ibs) = none →
            (compute_ibs_cbs S ncm de cat).aliquota_ibs = 0
              ∧ ({ regra := "TRANSIÇÃO IBS"
                   motivo := "Percentual IBS aplicado para " ++ toString de.y ++ ": " ++
                     pyFloat 0
                   fonte := "transicao_ibs.csv" } : Fund)
                  ∈ (compute_ibs_cbs S ncm de cat).fundamentos)
      ∧ ∀ (S : DataSources) (ncm : String) (de : D) (cat : Option String),
          year_factor_transicao S.transicao_cbs de.y (fun r => r.percentual_cbs) = none →
            (compute_ibs_cbs S ncm de cat).aliquota_cbs = 0
              ∧ ({ regra := "TRANSIÇÃO CBS"
                   motivo := "Percentual CBS aplicado para " ++ toString de.y ++ ": " ++
                     pyFloat 0
                   fonte := "transicao_cbs.csv" } : Fund)
                  ∈ (compute_ibs_cbs S ncm de cat).fundamentos := by
  refine ⟨?_, ?_, ?_, ?_⟩
  · intro h
    simp [year_factor_transicao, h]
  · intro r h
    simp [year_factor_transicao, h]
  · intro S ncm de cat h
    constructor
    · show (year_factor_transicao S.transicao_ibs de.y (fun r => r.percentual_ibs)).getD 0 = 0
      rw [h]
      rfl
    · simp only [compute_ibs_cbs, h]
      simp
  · intro S ncm de cat h
    constructor
    · show (year_factor_transicao S.transicao_cbs de.y (fun r => r.percentual_cbs)).getD 0 = 0
      rw [h]
      rfl
    · simp only [compute_ibs_cbs, h]
      simp

/-- Witness for C8: with empty schedules both applied rates default to 0. -/
theorem c8_rate_transition_witness :
    (compute_ibs_cbs S8 "123" ⟨2026, 1, 1⟩ none).aliquota_ibs = 0
      ∧ (compute_ibs_cbs S8 "123" ⟨2026, 1, 1⟩ none).aliquota_cbs = 0 :=
  ⟨((c8_rate_transition [] 2026 (fun r => r.percentual_ibs)).2.2.1 S8 "123" ⟨2026, 1, 1⟩
      none rfl).1,
   ((c8_rate_transition [] 2026 (fun r => r.percentual_cbs)).2.2.2 S8 "123" ⟨2026, 1, 1⟩
      none rfl).1⟩

/-- Count of an element in a conditional singleton of a different string. -/
theorem count_if_single (c : Bool) (s m : String) (h : ¬ s = m) :
    ((if c then [s] else []) : List String).count m = 0 := by
  cases c
  · rfl
  · simp [List.count_cons, h]

/-- Counterexample to claim C9 as stated: a request whose zone-production flag
is true and whose product code is absent from the zone-benefit list, but whose
issuer is *not* zone-resident, records no alert at all — the alert about
standard taxation is only emitted when the issuer zone-residency flag is also
set. -/
theorem c9_counterexample :
    (classify S9 "SN" "5102" "AM" "SP" "000" "1111.22.22" ⟨2026, 1, 1⟩
        false false true false false (some "123456") (some true) (some "654321")
        (some true) none).flag_produzido_zfm = true
      ∧ is_ncm_beneficiado_zfm S9 (norm_ncm "1111.22.22") = false
      ∧ (classify S9 "SN" "5102" "AM" "SP" "000" "1111.22.22" ⟨2026, 1, 1⟩
          false false true false false (some "123456") (some true) (some "654321")
          (some true) none).alertas = [] :=
  ⟨rfl, rfl, rfl⟩

/-- Claim C9 as amended: when the *issuer zone-residency* flag and the
zone-production flag are both true and the product code is absent from the
zone-benefit list, the result has standard (non-zero-override) IBS — the
benefit flag is false and the IBS rate is the transition-schedule value — and
the alert about standard taxation applying is recorded exactly once, while the
pending-item list is exactly what it would be without the zone-production
flag (the condition records an alert, never a pending-item). -/
theorem c9_zfm_unlisted (S : DataSources)
    (regime cfop uf_emit uf_dest cst_icms ncm : String) (de : D)
    (cg ido dz : Bool) (cse : Option String) (csea : Option Bool)
    (csd : Option String) (csda : Option Bool) (cm : Option Int)
    (hb : is_ncm_beneficiado_zfm S (norm_ncm ncm) = false) :
    let res := classify S regime cfop uf_emit uf_dest cst_icms ncm de cg ido true true dz
      cse csea csd csda cm
    res.beneficio_zfm_ibs_zero = false
      ∧ res.aliquota_ibs
          = (year_factor_transicao S.transicao_ibs de.y (fun r => r.percentual_ibs)).getD 0
      ∧ res.alertas.count "NCM não listado para benefício ZFM; IBS calculado normalmente" = 1
      ∧ res.pendencias
          = (classify S regime cfop uf_emit uf_dest cst_icms ncm de cg ido false true dz
              cse csea csd csda cm).pendencias := by
  intro res
  have hflag : res.beneficio_zfm_ibs_zero = false := by
    show (true && csea == some true && true && is_ncm_beneficiado_zfm S (norm_ncm ncm))
        = false
    rw [hb]
    simp
  have hibs : res.aliquota_ibs
      = (year_factor_transicao S.transicao_ibs de.y (fun r => r.percentual_ibs)).getD 0 := by
    have hdef : res.aliquota_ibs
        = (if res.beneficio_zfm_ibs_zero then 0
           else (year_factor_transicao S.transicao_ibs de.y (fun r => r.percentual_ibs)).getD 0) :=
      rfl
    rw [hdef, hflag]
    simp
  have halert : res.alertas
      = ((if trimS (cse.getD "") != "" && csea == some false then
            ["Cadastro SUFRAMA do emitente informado como inativo"]
          else []) ++
         (if trimS (csd.getD "") != "" && csda == some false then
            ["Cadastro SUFRAMA do destinatário informado como inativo"]
          else [])) ++
        (match ncm_row S (norm_ncm ncm) de with
          | some _ => []
          | none => ["Tributação aplicada pela regra geral (fallback)"]) ++
        (if (true && csea == some true && true && is_ncm_beneficiado_zfm S (norm_ncm ncm)) then
            []
          else if true && true && !(is_ncm_beneficiado_zfm S (norm_ncm ncm)) then
            ["NCM não listado para benefício ZFM; IBS calculado normalmente"]
          else []) := rfl
  rw [hb] at halert
  simp only [Bool.and_true, Bool.true_and, Bool.and_false, Bool.not_false, if_false,
    Bool.false_and, if_true, ite_true, ite_false, Bool.and_self] at halert
  refine ⟨hflag, hibs, ?_, rfl⟩
  rw [halert]
  simp only [List.count_append]
  rw [count_if_single _ _ _ (by decide), count_if_single _ _ _ (by decide)]
  cases hrow : ncm_row S (norm_ncm ncm) de <;>
    simp [List.count_cons]

/-- Witness for the amended C9 at a concrete request. -/
theorem c9_zfm_unlisted_witness :
    (classify S9 "SN" "5102" "AM" "SP" "000" "1111.22.22" ⟨2026, 1, 1⟩
      false false true true false (some "123456") (some true) (some "654321") (some true)
      none).alertas.count "NCM não listado para benefício ZFM; IBS calculado normalmente"
      = 1 :=
  (c9_zfm_unlisted S9 "SN" "5102" "AM" "SP" "000" "1111.22.22" ⟨2026, 1, 1⟩
    false false false (some "123456") (some true) (some "654321") (some true) none
    rfl).2.2.1

/-- The candidate list returned by `pick_cclastrib` is the stable descending
sort of the filtered rule table. -/
theorem pick_cclastrib_candidates (S : DataSources) (regime cfop uf_e uf_d cst_icms : String)
    (z : Bool) :
    (pick_cclastrib S regime cfop uf_e uf_d cst_icms z).2.2
      = sortDesc (cclastrib_score z)
          (S.cclastrib.filter
            (cclastrib_match (norm_code regime) (norm_code cfop) (norm_code uf_e)
              (norm_code uf_d) (norm_code cst_icms) z)) := by
  have key : ∀ cand : List CRow,
      (match sortDesc (cclastrib_score z) cand with
       | top :: _ =>
         (pyOrS top.codigo "REGRA-GERAL", pyOrS top.descricao "Regra geral",
           sortDesc (cclastrib_score z) cand)
       | [] =>
         ("REGRA-GERAL", "Regra geral (sem match em cclastrib.csv)", ([] : List CRow))).2.2
        = sortDesc (cclastrib_score z) cand := by
    intro cand
    cases h : sortDesc (cclastrib_score z) cand <;> simp [h]
  exact key _

/-- Claim C7: rule selection is deterministic and order-stable — identical
inputs give identical results; the candidate list is ordered by the
specificity score (with the +10 ZFM bonus folded into `cclastrib_score`)
descending; it is a permutation of the filtered table; and for every score
value the equal-scoring candidates keep their original table order (the
earliest row among equal scores comes first). -/
theorem c7_pick_deterministic (S : DataSources) (regime cfop uf_e uf_d cst_icms : String)
    (z : Bool) :
    pick_cclastrib S regime cfop uf_e uf_d cst_icms z
        = pick_cclastrib S regime cfop uf_e uf_d cst_icms z
      ∧ (pick_cclastrib S regime cfop uf_e uf_d cst_icms z).2.2.Pairwise
          (fun a b => cclastrib_score z b ≤ cclastrib_score z a)
      ∧ (pick_cclastrib S regime cfop uf_e uf_d cst_icms z).2.2.Perm
          (S.cclastrib.filter
            (cclastrib_match (norm_code regime) (norm_code cfop) (norm_code uf_e)
              (norm_code uf_d) (norm_code cst_icms) z))
      ∧ ∀ k : Nat,
          (pick_cclastrib S regime cfop uf_e uf_d cst_icms z).2.2.filter
              (fun r => cclastrib_score z r == k)
            = (S.cclastrib.filter
                (cclastrib_match (norm_code regime) (norm_code cfop) (norm_code uf_e)
                  (norm_code uf_d) (norm_code cst_icms) z)).filter
                (fun r => cclastrib_score z r == k) := by
  refine ⟨rfl, ?_, ?_, ?_⟩
  · rw [pick_cclastrib_candidates]
    exact pairwise_sortDesc _ _
  · rw [pick_cclastrib_candidates]
    exact perm_sortDesc _ _
  · intro k
    rw [pick_cclastrib_candidates]
    exact filter_sortDesc _ _ _

/-- Witness for C7: the candidate ordering produced on a concrete snapshot is
sorted by score descending. -/
theorem c7_pick_deterministic_witness :
    (pick_cclastrib S7 "SN" "5102" "SP" "RJ" "102" false).2.2.Pairwise
      (fun a b => cclastrib_score false b ≤ cclastrib_score false a) :=
  (c7_pick_deterministic S7 "SN" "5102" "SP" "RJ" "102" false).2.1

/-- Behaviour of `detect_producao_emitente` on a found row whose key is a
non-empty `norm_code` fixed point. -/
theorem detect_producao_spec (code : String) (r : CfopRow)
    (hn : norm_code code = code) (hne : code ≠ "") :
    detect_producao_emitente code (some r)
      = (if cfop_saida code then
           some (producao_keywords.any (fun k => strContains (normalize_text r.descricao_cfop) k))
         else some false) := by
  unfold detect_producao_emitente
  rw [hn]
  have h1 : (code == "") = false := by simpa using hne
  simp only [h1, Bool.false_eq_true, if_false]
  cases hs : cfop_saida code <;> simp [hs]

/-- Behaviour of `detect_venda_industrializada` on a found row whose key is a
non-empty `norm_code` fixed point. -/
theorem detect_venda_spec (code : String) (r : CfopRow)
    (hn : norm_code code = code) (hne : code ≠ "") :
    detect_venda_industrializada code (some r)
      = (if cfop_saida code then
           some (venda_keywords.any (fun k => strContains (normalize_text r.descricao_cfop) k))
         else some false) := by
  unfold detect_venda_industrializada
  rw [hn]
  have h1 : (code == "") = false := by simpa using hne
  simp only [h1, Bool.false_or]
  cases hs : cfop_saida code <;> simp [hs]

/-- Claim C6: operation-type classification.  With the descriptor dictionary
built by `build_cfop_index` and the normalized operation-type code (as
`classify` calls the detectors): a code not found gives `none`/`none` (unknown,
not false); a found code whose leading digit is not in {5, 6, 7} gives
`some false` for both flags; a found outbound code gives each flag true exactly
when the lowercased, accent-stripped description contains one of the
respective keyword phrases, and false otherwise. -/
theorem c6_operation_type (rows : List CfopRow) (cfop : String) :
    (build_cfop_index rows (norm_code cfop) = none →
      detect_producao_emitente (norm_code cfop) (build_cfop_index rows (norm_code cfop))
          = none
        ∧ detect_venda_industrializada (norm_code cfop)
            (build_cfop_index rows (norm_code cfop)) = none)
      ∧ ∀ r, build_cfop_index rows (norm_code cfop) = some r →
          (cfop_saida (norm_code cfop) = false →
            detect_producao_emitente (norm_code cfop)
                (build_cfop_index rows (norm_code cfop)) = some false
              ∧ detect_venda_industrializada (norm_code cfop)
                  (build_cfop_index rows (norm_code cfop)) = some false)
          ∧ (cfop_saida (norm_code cfop) = true →
            detect_producao_emitente (norm_code cfop)
                (build_cfop_index rows (norm_code cfop))
                = some (producao_keywords.any
                    (fun k => strContains (normalize_text r.descricao_cfop) k))
              ∧ detect_venda_industrializada (norm_code cfop)
                  (build_cfop_index rows (norm_code cfop))
                  = some (venda_keywords.any
                      (fun k => strContains (normalize_text r.descricao_cfop) k))) := by
  constructor
  · intro h
    rw [h]
    exact ⟨rfl, rfl⟩
  · intro r h
    obtain ⟨hn, hne⟩ := build_cfop_index_key h
    constructor
    · intro hout
      rw [h, detect_producao_spec _ _ hn hne, detect_venda_spec _ _ hn hne, hout]
      exact ⟨rfl, rfl⟩
    · intro hout
      rw [h, detect_producao_spec _ _ hn hne, detect_venda_spec _ _ hn hne, hout]
      exact ⟨rfl, rfl⟩

/-- Witness for C6: code 5101 is found, outbound, and its description contains
an own-production keyword, so the flag is `some true`. -/
theorem c6_operation_type_witness :
    detect_producao_emitente (norm_code "5101") (build_cfop_index cfopW (norm_code "5101"))
      = some true := by
  have h := (c6_operation_type cfopW "5101").2
    ⟨"5101", "Venda de produção do estabelecimento"⟩ rfl
  have h2 := (h.2 (by decide)).1
  rw [h2]
  decide
